import Mathlib

/-!
Shallow embedding of the `webview-x` repository (src/lib.rs and src/wv2.rs):
a thin layer over two embeddable browser engines (the evergreen "WebView2"
runtime and the legacy MSHTML control).  External side effects (the runtime
probe, the confirmation dialog, the installer process, window destruction,
controller operations) are made observable as explicit effect traces, and the
outcomes of external calls (probe result, the user's dialog answer, the
installer's exit status) are supplied by an explicit environment record.
-/

namespace WebviewX

/-- Observable external side effects of the engine-selection and installation
code in src/lib.rs.  `probeRuntime f` is a call to
`webview2::get_available_browser_version_string(f)`; `showConfirmDialog m` is
the blocking `tinyfiledialogs::message_box_ok_cancel` prompt; `spawnInstaller`
is spawning `powershell.exe` with the bundled bootstrapper script on stdin. -/
inductive Effect where
  | probeRuntime (folder : Option String)
  | showConfirmDialog (msg : String)
  | spawnInstaller
  deriving DecidableEq, Repr

/-- Outcomes of the external calls that `install_webview2` and `build` make.
`runtimePresent f` is whether `get_available_browser_version_string(f)`
returns `Ok`; `userOk` is whether the user answers OK (not Cancel) to the
confirmation prompt; `installerSuccess` is whether the spawned installer
process exits with status zero. -/
structure Env where
  runtimePresent : Option String → Bool
  userOk : Bool
  installerSuccess : Bool

/-- Error type of src/lib.rs (`WVError::Cause`). -/
inductive WVError where
  | Cause (m : String)
  deriving DecidableEq, Repr

/-- Embedding of `install_webview2(confirm, wv2_folder)` (src/lib.rs lines
21-55).  If the probe for an existing runtime fails (`is_err`), optionally
show the OK/Cancel confirmation prompt (Cancel returns `false` with no
further effect), then spawn the installer process and report whether it
exited successfully.  If the probe succeeds, return `true` at once.
The returned list is the trace of external effects, in order. -/
def install_webview2 (env : Env) (confirm : Option String)
    (wv2_folder : Option String) : Bool × List Effect :=
  if !(env.runtimePresent wv2_folder) then
    match confirm with
    | some m =>
        if !env.userOk then
          (false, [.probeRuntime wv2_folder, .showConfirmDialog m])
        else
          (env.installerSuccess,
            [.probeRuntime wv2_folder, .showConfirmDialog m, .spawnInstaller])
    | none =>
        (env.installerSuccess, [.probeRuntime wv2_folder, .spawnInstaller])
  else
    (true, [.probeRuntime wv2_folder])

/-- The engine-mode enumeration `WebViewEngine` of src/lib.rs lines 60-75. -/
inductive WebViewEngine where
  | Auto (msg : Option String)
  | Fallback
  | Legacy
  | WebView2 (msg : Option String)
  deriving DecidableEq, Repr

/-- Embedding of the engine-resolution `match self.engine` at the top of
`WebViewBuilder::build` (src/lib.rs lines 197-211).  The source binds the
arms to `wv2_installed`: the `WebView2(msg)` arm calls `install_webview2`
and returns an error when it fails, the `Auto(msg)` arm calls
`install_webview2` and keeps its boolean, the `Fallback` arm only probes
(`get_available_browser_version_string(..).is_ok()`), and the remaining
(`Legacy`) arm is literally `_ => None` and performs no call at all.  The
resolved value is therefore modelled as `Option Bool` (`none` on the Legacy
arm).  The rest of `build` (src/lib.rs lines 213-259) contains no call to
`install_webview2` and no runtime probe, so the effect trace of the whole
of `build` restricted to these effect kinds is exactly this arm's trace. -/
def build_engine_select (env : Env) (engine : WebViewEngine) :
    (Except WVError (Option Bool)) × List Effect :=
  match engine with
  | .WebView2 msg =>
      let r := install_webview2 env msg none
      if !r.1 then (.error (.Cause "install failed"), r.2)
      else (.ok (some true), r.2)
  | .Auto msg =>
      let r := install_webview2 env msg none
      (.ok (some r.1), r.2)
  | .Fallback =>
      (.ok (some (env.runtimePresent none)), [.probeRuntime none])
  | .Legacy => (.ok none, [])

/-- Claim C3: with engine mode `Legacy` (force-legacy), the engine-selection
step of `build()` performs no evergreen installation and no runtime probe:
its external effect trace is empty, so in particular it never spawns the
installer, never probes the runtime version, and never shows a dialog. -/
theorem C3_force_legacy_no_install_no_probe (env : Env) :
    (build_engine_select env .Legacy).2 = [] ∧
    Effect.spawnInstaller ∉ (build_engine_select env .Legacy).2 ∧
    (∀ f, Effect.probeRuntime f ∉ (build_engine_select env .Legacy).2) := by
  refine ⟨rfl, ?_, ?_⟩ <;> simp [build_engine_select]

/-- Claim C4: with engine mode `Fallback`, `build()`'s engine selection
causes no installation side effect regardless of whether the runtime is
present: its effect trace is exactly one runtime probe, and the probe's
outcome decides the evergreen-versus-legacy path. -/
theorem C4_fallback_probes_only (env : Env) :
    (build_engine_select env .Fallback).2 = [.probeRuntime none] ∧
    Effect.spawnInstaller ∉ (build_engine_select env .Fallback).2 ∧
    (∀ m, Effect.showConfirmDialog m ∉ (build_engine_select env .Fallback).2) ∧
    (build_engine_select env .Fallback).1 =
      .ok (some (env.runtimePresent none)) := by
  refine ⟨rfl, ?_, ?_, rfl⟩ <;> simp [build_engine_select]

/-- Claim C5: for every confirm message and every folder argument, when the
runtime probe at that folder succeeds, `install_webview2` returns `true`
and its only external effect is the probe itself: no confirmation dialog is
shown and no installer process is spawned. -/
theorem C5_present_returns_true_no_spawn (env : Env) (confirm : Option String)
    (folder : Option String) (h : env.runtimePresent folder = true) :
    install_webview2 env confirm folder = (true, [.probeRuntime folder]) ∧
    Effect.spawnInstaller ∉ (install_webview2 env confirm folder).2 ∧
    (∀ m, Effect.showConfirmDialog m ∉ (install_webview2 env confirm folder).2) := by
  refine ⟨?_, ?_, ?_⟩ <;> simp [install_webview2, h]

theorem C5_witness :
    ((⟨fun _ => true, false, false⟩ : Env).runtimePresent (some "d") = true) ∧
    (install_webview2 ⟨fun _ => true, false, false⟩ (some "install?") (some "d")
      = (true, [.probeRuntime (some "d")]) ∧
     Effect.spawnInstaller ∉
       (install_webview2 ⟨fun _ => true, false, false⟩ (some "install?") (some "d")).2 ∧
     (∀ m, Effect.showConfirmDialog m ∉
       (install_webview2 ⟨fun _ => true, false, false⟩ (some "install?") (some "d")).2)) :=
  ⟨rfl, C5_present_returns_true_no_spawn ⟨fun _ => true, false, false⟩
    (some "install?") (some "d") rfl⟩

/-- Claim C6: when the runtime is absent, a confirmation message was
supplied, and the user answers Cancel to the blocking OK/Cancel prompt,
`install_webview2` returns `false` and spawns no installer process; its
effects are exactly the probe and the prompt. -/
theorem C6_cancel_returns_false_no_spawn (env : Env) (m : String)
    (folder : Option String) (habs : env.runtimePresent folder = false)
    (hcancel : env.userOk = false) :
    install_webview2 env (some m) folder
      = (false, [.probeRuntime folder, .showConfirmDialog m]) ∧
    Effect.spawnInstaller ∉ (install_webview2 env (some m) folder).2 := by
  constructor <;> simp [install_webview2, habs, hcancel]

theorem C6_witness :
    ((⟨fun _ => false, false, true⟩ : Env).runtimePresent none = false) ∧
    ((⟨fun _ => false, false, true⟩ : Env).userOk = false) ∧
    (install_webview2 ⟨fun _ => false, false, true⟩ (some "install?") none
      = (false, [.probeRuntime none, .showConfirmDialog "install?"]) ∧
     Effect.spawnInstaller ∉
       (install_webview2 ⟨fun _ => false, false, true⟩ (some "install?") none).2) :=
  ⟨rfl, rfl,
    C6_cancel_returns_false_no_spawn ⟨fun _ => false, false, true⟩
      "install?" none rfl rfl⟩

/-- The evergreen handle `WebView2` (src/wv2.rs lines 373-376): a raw window
handle (`0` models the null HWND) together with the shared single-assignment
controller cell `Rc<OnceCell<Controller>>` (`none` while unpopulated).  The
controller itself is an opaque collaborator, modelled as `Unit`. -/
structure WebView2 where
  hwnd : Nat
  wv : Option Unit
  deriving DecidableEq, Repr

/-- `WebView2::exit` (src/wv2.rs lines 390-395): call `DestroyWindow` on the
stored handle, then null it out.  The second component is the list of
handles passed to `DestroyWindow`, in order. -/
def WebView2.exit (s : WebView2) : WebView2 × List Nat :=
  ({ s with hwnd := 0 }, [s.hwnd])

/-- `impl Drop for WebView2` (src/wv2.rs lines 378-382) just calls
`self.exit()`. -/
def WebView2.drop (s : WebView2) : WebView2 × List Nat :=
  s.exit

/-- OS semantics of the `DestroyWindow` collaborator: a call with the null
handle fails and destroys nothing, so the windows actually destroyed by a
sequence of calls are the nonnull handles among them. -/
def destroyedWindows (calls : List Nat) : List Nat :=
  calls.filter (· ≠ 0)

/-- Claim C2: calling `exit()` twice on an evergreen handle never destroys
the native window twice.  The first `exit()` nulls the stored handle, the
second call passes only the null handle to `DestroyWindow` (destroying
nothing), so across both calls at most one window is destroyed and the
second call adds no destruction; a subsequent `drop` likewise destroys
nothing. -/
theorem C2_exit_idempotent (s : WebView2) :
    s.exit.1.hwnd = 0 ∧
    s.exit.1.exit.2 = [0] ∧
    destroyedWindows (s.exit.2 ++ s.exit.1.exit.2) = destroyedWindows s.exit.2 ∧
    (destroyedWindows (s.exit.2 ++ s.exit.1.exit.2)).length ≤ 1 ∧
    destroyedWindows s.exit.1.drop.2 = [] := by
  refine ⟨rfl, rfl, ?_, ?_, rfl⟩ <;>
    by_cases h : s.hwnd = 0 <;>
      simp [WebView2.exit, WebView2.drop, destroyedWindows, h]

/-- Operations `loadUrl` can perform on the webview object. -/
inductive WvOp where
  | navigate (url : String)
  deriving DecidableEq, Repr

/-- `WebView2::loadUrl` (src/wv2.rs lines 397-400):
`self.wv.get().unwrap().get_webview().unwrap().navigate(url)`.  The first
`unwrap` panics when the single-assignment cell is still empty; a panic is
modelled as `none`.  `get_webview` and `navigate` are opaque collaborator
calls recorded in the trace. -/
def WebView2.loadUrl (s : WebView2) (url : String) : Option (List WvOp) :=
  match s.wv with
  | none => none
  | some _ => some [.navigate url]

/-- Claim C9: calling `loadUrl` on an evergreen handle whose controller cell
has not yet been populated panics (the implementation unwraps the empty
cell rather than queuing, blocking or returning an error). -/
theorem C9_loadUrl_unpopulated_panics (s : WebView2) (url : String)
    (h : s.wv = none) :
    s.loadUrl url = none := by
  simp [WebView2.loadUrl, h]

theorem C9_witness :
    ((⟨77, none⟩ : WebView2).wv = none) ∧
    (⟨77, none⟩ : WebView2).loadUrl "about:blank" = none :=
  ⟨rfl, C9_loadUrl_unpopulated_panics ⟨77, none⟩ "about:blank" rfl⟩

/-! Window message and system-command constants (values of the winapi
constants used in src/wv2.rs). -/

def WM_DESTROY : Nat := 0x0002
def WM_MOVE : Nat := 0x0003
def WM_SIZE : Nat := 0x0005
def WM_SYSCOMMAND : Nat := 0x0112
def WM_DPICHANGED : Nat := 0x02E0
def SC_MINIMIZE : Nat := 0xF020
def SC_RESTORE : Nat := 0xF120

/-- Operations the evergreen window procedure performs on the controller. -/
inductive ControllerOp where
  | putBounds
  | notifyPositionChanged
  | putIsVisible (visible : Bool)
  deriving DecidableEq, Repr

/-- What a window-procedure invocation returns. -/
inductive WndResult where
  | zero
  | defWindowProc
  deriving DecidableEq, Repr

/-- The evergreen window-procedure closure built in `WebView2Builder::build`
(src/wv2.rs lines 210-255).  Each arm guards its controller operation with
`if let Some(c) = controller.get()`: WM_SIZE propagates the client rect via
`put_bounds`, WM_MOVE calls `notify_parent_window_position_changed`,
WM_SYSCOMMAND with SC_MINIMIZE / SC_RESTORE toggles `put_is_visible` and
then falls through to `DefWindowProcW`, WM_DPICHANGED repositions the
window with `SetWindowPos` (no controller operation) and returns 0, and
every other message goes to `DefWindowProcW`.  The result is the list of
controller operations performed and what the invocation returns. -/
def wv2_wnd_proc (controller : Option Unit) (msg wParam : Nat) :
    List ControllerOp × WndResult :=
  if msg = WM_SIZE then
    ((match controller with
      | some _ => [ControllerOp.putBounds]
      | none => []), .zero)
  else if msg = WM_MOVE then
    ((match controller with
      | some _ => [ControllerOp.notifyPositionChanged]
      | none => []), .zero)
  else if msg = WM_SYSCOMMAND ∧ wParam = SC_MINIMIZE then
    ((match controller with
      | some _ => [ControllerOp.putIsVisible false]
      | none => []), .defWindowProc)
  else if msg = WM_SYSCOMMAND ∧ wParam = SC_RESTORE then
    ((match controller with
      | some _ => [ControllerOp.putIsVisible true]
      | none => []), .defWindowProc)
  else if msg = WM_DPICHANGED then ([], .zero)
  else ([], .defWindowProc)

/-- Claim C8: for every window message handled by the evergreen window
procedure, if the shared controller cell is not yet populated the handler
performs no controller operation and still returns (either 0 or the
default-handler result) — the unpopulated case is a safe no-op with no
panic, since the `unwrap`-carrying operations are only reached inside the
`if let Some` guards. -/
theorem C8_handlers_noop_when_unpopulated (controller : Option Unit)
    (msg wParam : Nat) (h : controller = none) :
    (wv2_wnd_proc controller msg wParam).1 = [] ∧
    ((wv2_wnd_proc controller msg wParam).2 = .zero ∨
      (wv2_wnd_proc controller msg wParam).2 = .defWindowProc) := by
  subst h
  refine ⟨?_, ?_⟩
  · simp only [wv2_wnd_proc]
    repeat' split
    all_goals rfl
  · cases hr : (wv2_wnd_proc none msg wParam).2 with
    | zero => exact Or.inl rfl
    | defWindowProc => exact Or.inr rfl

theorem C8_witness :
    ((none : Option Unit) = none) ∧
    ((wv2_wnd_proc none WM_SIZE 0).1 = [] ∧
      ((wv2_wnd_proc none WM_SIZE 0).2 = .zero ∨
        (wv2_wnd_proc none WM_SIZE 0).2 = .defWindowProc)) :=
  ⟨rfl, C8_handlers_noop_when_unpopulated none WM_SIZE 0 rfl⟩

/-- Actions a single invocation of the static trampoline `wnd_proc`
(src/wv2.rs lines 109-131) can take.  `invokeClosure p` forwards the message
to the boxed closure at address `p`; `freeAndQuit p` is the WM_DESTROY
branch, which reconstitutes the box from address `p` (freeing it), clears
the slot, posts the quit message and returns 0; `defWindowProc` is the
null-slot fallback `DefWindowProcW`. -/
inductive TrampAction where
  | invokeClosure (p : Nat)
  | freeAndQuit (p : Nat)
  | defWindowProc
  deriving DecidableEq, Repr

/-- The process-wide trampoline slot `GLOBAL_F` (src/wv2.rs line 96);
`slot = 0` is the null pointer. -/
structure TrampState where
  slot : Nat
  deriving DecidableEq, Repr

/-- `wnd_proc_helper::as_global_wnd_proc` (src/wv2.rs lines 102-107): box
the closure and store its (nonnull) address in the global slot. -/
def as_global_wnd_proc (boxed : Nat) : TrampState :=
  ⟨boxed⟩

/-- One invocation of the static trampoline `wnd_proc` (src/wv2.rs lines
109-131).  On WM_DESTROY it unconditionally runs `Box::from_raw` on the
slot's current contents, clears the slot and returns 0 without calling
DefWindowProcW (note: this branch does not test the slot for null).
Otherwise a nonnull slot forwards the message to the closure, and a null
slot falls back to `DefWindowProcW`. -/
def wnd_proc_step (s : TrampState) (msg : Nat) : TrampState × TrampAction :=
  if msg = WM_DESTROY then (⟨0⟩, .freeAndQuit s.slot)
  else if s.slot ≠ 0 then (s, .invokeClosure s.slot)
  else (s, .defWindowProc)

/-- Run the trampoline over a message sequence from a given slot state,
pairing each message with the action taken on it. -/
def runTramp (s : TrampState) : List Nat → List (Nat × TrampAction)
  | [] => []
  | m :: ms => (m, (wnd_proc_step s m).2) :: runTramp (wnd_proc_step s m).1 ms

/-- From a null slot, the trampoline never invokes a closure, and every
non-destroy message goes to the default handler (a destroy message re-runs
the destroy branch on the null slot instead). -/
theorem runTramp_null_slot (msgs : List Nat) (m : Nat) (a : TrampAction)
    (hm : (m, a) ∈ runTramp ⟨0⟩ msgs) :
    (∀ p, a ≠ .invokeClosure p) ∧ (m ≠ WM_DESTROY → a = .defWindowProc) := by
  induction msgs with
  | nil => simp [runTramp] at hm
  | cons x xs ih =>
      simp only [runTramp] at hm
      rcases List.mem_cons.mp hm with heq | htl
      · injection heq with h1 h2
        subst h1
        subst h2
        by_cases hx : m = WM_DESTROY <;> simp [wnd_proc_step, hx]
      · have hs : (wnd_proc_step ⟨0⟩ x).1 = ⟨0⟩ := by
          by_cases hx : x = WM_DESTROY <;> simp [wnd_proc_step, hx]
        rw [hs] at htl
        exact ih htl

/-- Claim C1 (amended): once the trampoline has processed a WM_DESTROY
message (freeing the boxed closure and clearing the global slot), no later
invocation ever invokes the freed closure, and every later non-destroy
message is forwarded to the platform's default window handler.  (A later
WM_DESTROY message instead re-runs the destroy branch on the now-null
slot — see the counterexample to the unrestricted claim.) -/
theorem C1_post_destroy_no_closure_invocation (s : TrampState)
    (msgs : List Nat) (m : Nat) (a : TrampAction)
    (hm : (m, a) ∈ runTramp (wnd_proc_step s WM_DESTROY).1 msgs) :
    (∀ p, a ≠ .invokeClosure p) ∧ (m ≠ WM_DESTROY → a = .defWindowProc) := by
  have hs : (wnd_proc_step s WM_DESTROY).1 = ⟨0⟩ := by
    simp [wnd_proc_step]
  rw [hs] at hm
  exact runTramp_null_slot msgs m a hm

theorem C1_witness :
    ((WM_SIZE, TrampAction.defWindowProc) ∈
      runTramp (wnd_proc_step (as_global_wnd_proc 1) WM_DESTROY).1 [WM_SIZE]) ∧
    ((∀ p, TrampAction.defWindowProc ≠ .invokeClosure p) ∧
      (WM_SIZE ≠ WM_DESTROY → TrampAction.defWindowProc = .defWindowProc)) :=
  ⟨by decide,
    C1_post_destroy_no_closure_invocation (as_global_wnd_proc 1) [WM_SIZE]
      WM_SIZE .defWindowProc (by decide)⟩

/-- Claim C1, as stated, is false: it asks that EVERY post-destroy message
be forwarded to the default window handler, but a second WM_DESTROY message
arriving after the slot was cleared takes the destroy branch again — it
runs `Box::from_raw` on the null slot and returns 0, and is not forwarded
to `DefWindowProcW`. -/
theorem C1_counterexample :
    runTramp (wnd_proc_step (as_global_wnd_proc 1) WM_DESTROY).1 [WM_DESTROY]
      = [(WM_DESTROY, .freeAndQuit 0)] ∧
    (WM_DESTROY, TrampAction.defWindowProc) ∉
      runTramp (wnd_proc_step (as_global_wnd_proc 1) WM_DESTROY).1 [WM_DESTROY] := by
  decide

/-- The characters of the scheme separator "://". -/
def schemeSep : List Char := [':', '/', '/']

/-- Whether the first list occurs at the head of the second. -/
def listStarts : List Char → List Char → Bool
  | [], _ => true
  | _ :: _, [] => false
  | p :: ps, c :: cs => p = c && listStarts ps cs

/-- Whether the pattern occurs contiguously anywhere in the list (the
behaviour of `str::find` returning `Some`). -/
def containsSeq (pat : List Char) : List Char → Bool
  | [] => listStarts pat []
  | c :: cs => listStarts pat (c :: cs) || containsSeq pat cs

/-- The legacy control's content argument (`web_view::Content`). -/
inductive Content where
  | Url (s : List Char)
  | Html (s : List Char)
  deriving DecidableEq, Repr

/-- The URL/content disambiguation of the legacy path of
`WebViewBuilder::build` (src/lib.rs lines 241-245):
`self.url[.. 10.min(self.url.len()-1)].find("://")` searches the first
`min(10, len - 1)` characters of the url; `find` returning `None` selects
`Content::Html(url)` and a hit selects `Content::Url(url)`.  For an empty
url, `self.url.len() - 1` underflows and the slice panics; the panic is
modelled as `none`. -/
def legacy_content (url : List Char) : Option Content :=
  match url with
  | [] => none
  | _ :: _ =>
      if containsSeq schemeSep (url.take (min 10 (url.length - 1))) then
        some (.Url url)
      else
        some (.Html url)

/-- Claim C7, as stated, is false: the code does not search the full first
10 characters but only the first `min(10, len - 1)`.  The 5-character url
"ab://" contains "://" within its first 10 characters, yet the code slices
off the final character, finds no separator in "ab:/", and treats the value
as inline HTML rather than a URL. -/
theorem C7_counterexample :
    containsSeq schemeSep (List.take 10 ['a', 'b', ':', '/', '/']) = true ∧
    legacy_content ['a', 'b', ':', '/', '/']
      = some (.Html ['a', 'b', ':', '/', '/']) ∧
    legacy_content ['a', 'b', ':', '/', '/']
      ≠ some (.Url ['a', 'b', ':', '/', '/']) := by
  decide

/-- Claim C7 (amended): in `build()`'s legacy path, a nonempty url string is
passed as a navigable URL (`Content::Url`) exactly when it contains the
scheme separator "://" within its first `min(10, length - 1)` characters,
and as inline HTML (`Content::Html`) otherwise; in particular
"https://example.com" is treated as a URL and "&lt;html&gt;hi&lt;/html&gt;"
as inline content. -/
theorem C7_url_content_disambiguation (url : List Char) (h : url ≠ []) :
    (legacy_content url = some (.Url url) ↔
      containsSeq schemeSep (url.take (min 10 (url.length - 1))) = true) ∧
    (legacy_content url = some (.Html url) ↔
      containsSeq schemeSep (url.take (min 10 (url.length - 1))) = false) ∧
    legacy_content "https://example.com".toList
      = some (.Url "https://example.com".toList) ∧
    legacy_content "<html>hi</html>".toList
      = some (.Html "<html>hi</html>".toList) := by
  refine ⟨?_, ?_, by decide, by decide⟩ <;>
    · cases url with
      | nil => exact absurd rfl h
      | cons c cs =>
          by_cases hc :
            containsSeq schemeSep
              ((c :: cs).take (min 10 ((c :: cs).length - 1))) = true <;>
            simp_all [legacy_content]

theorem C7_witness :
    (['a'] ≠ ([] : List Char)) ∧
    ((legacy_content ['a'] = some (.Url ['a']) ↔
        containsSeq schemeSep
          (List.take (min 10 (List.length ['a'] - 1)) ['a']) = true) ∧
      (legacy_content ['a'] = some (.Html ['a']) ↔
        containsSeq schemeSep
          (List.take (min 10 (List.length ['a'] - 1)) ['a']) = false) ∧
      legacy_content "https://example.com".toList
        = some (.Url "https://example.com".toList) ∧
      legacy_content "<html>hi</html>".toList
        = some (.Html "<html>hi</html>".toList)) :=
  ⟨by decide, C7_url_content_disambiguation ['a'] (by decide)⟩

/-- The configuration handed to the legacy control's builder in the legacy
path of `build` (src/lib.rs lines 246-255).  The `handler` field is the
closure passed to `.invoke_handler(..)`; applied to the configured handler
(an opaque identifier) and a message from page script, it yields the list
of calls it makes to the configured handler together with its result. -/
structure LegacyConfig where
  title : String
  content : Content
  width : Int
  height : Int
  resizable : Bool
  debug : Bool
  frameless : Bool
  handler : Option Nat → List Char → List Nat × Except WVError Unit

/-- The configuration fields of `WebViewBuilder` (src/lib.rs lines 106-116);
the configured invoke handler is an opaque identifier. -/
structure WebViewBuilder where
  engine : WebViewEngine
  title : String
  url : List Char
  debug : Bool
  width : Int
  height : Int
  resizable : Bool
  invoke_handler : Option Nat
  frameless : Bool

/-- The legacy branch of `WebViewBuilder::build` (src/lib.rs lines 241-255):
disambiguate the url, then map the configuration fields onto the legacy
control's builder — passing the constant closure `|_,_| Ok(())` as the
invoke handler instead of forwarding `self.invoke_handler`.  The constant
closure ignores both the configured handler and the message and makes no
call. -/
def build_legacy (b : WebViewBuilder) : Option LegacyConfig :=
  (legacy_content b.url).map fun content =>
    { title := b.title
      content := content
      width := b.width
      height := b.height
      resizable := b.resizable
      debug := b.debug
      frameless := b.frameless
      handler := fun _ _ => ([], Except.ok ()) }

/-- Claim C10: in `build()`'s legacy path, the invoke handler configured on
`WebViewBuilder` is never forwarded to the legacy control: the installed
handler makes no call to the configured handler for any message from page
script and always returns `Ok(())`, and the installed handler does not
depend on the configured one. -/
theorem C10_legacy_handler_never_forwarded (b : WebViewBuilder)
    (cfg : LegacyConfig) (hb : build_legacy b = some cfg) (msg : List Char)
    (configured : Option Nat) :
    cfg.handler configured msg = ([], Except.ok ()) ∧
    (cfg.handler b.invoke_handler msg).1 = [] := by
  cases hc : legacy_content b.url with
  | none => simp [build_legacy, hc] at hb
  | some content =>
      simp only [build_legacy, hc] at hb
      injection hb with hb2
      subst hb2
      exact ⟨rfl, rfl⟩

theorem C10_witness :
    (build_legacy
        ⟨.Legacy, "t", ['a'], false, 800, 600, true, some 7, false⟩
      = some
        ⟨"t", .Html ['a'], 800, 600, true, false, false,
          fun _ _ => ([], Except.ok ())⟩) ∧
    ((⟨"t", .Html ['a'], 800, 600, true, false, false,
        fun _ _ => ([], Except.ok ())⟩ : LegacyConfig).handler
          (some 3) ['m'] = ([], Except.ok ()) ∧
      ((⟨"t", .Html ['a'], 800, 600, true, false, false,
          fun _ _ => ([], Except.ok ())⟩ : LegacyConfig).handler
            (some 7) ['m']).1 = []) :=
  ⟨rfl,
    C10_legacy_handler_never_forwarded
      ⟨.Legacy, "t", ['a'], false, 800, 600, true, some 7, false⟩
      ⟨"t", .Html ['a'], 800, 600, true, false, false,
        fun _ _ => ([], Except.ok ())⟩
      rfl ['m'] (some 3)⟩

end WebviewX
